import Mathlib

/-!
Shallow embedding of the water-body-detection notebook
(src/Water_Body_Detection_from_Satellite_Imagery.ipynb).

The notebook defines two pure numerical pipelines over multi-band rasters:
`create_false_color_composite` (bands 7,3,2 stacked and jointly min-max
normalized to 8-bit) and `highlight_water_bodies` (NDWI from bands 3 and 5,
strict thresholding into a water mask, percentile contrast stretch of bands
4,3,2 as background, mask compositing with a fixed highlight color).

Modelling conventions:
  - numeric samples (numpy float32/float64 values) are embedded as rationals;
  - a floating-point result that is NaN or infinite (division by a zero
    denominator in `normalize_band`) is embedded as `none : Option ℚ`;
  - `astype(np.uint8)` on the nonnegative in-range values produced here is
    truncation toward zero, embedded as the integer floor;
  - a raised `gr.Error` is an `Except.error` carrying a constructor of
    `GrError` that stands for the raised message; the `try/except` wrapper of
    each pipeline is `handleExceptions` below, mirroring the two `except`
    clauses of the source in order.
-/

namespace WaterBody

/-- One raster band: a height × width array of numeric samples. -/
abbrev Band (h w : ℕ) := Fin h → Fin w → ℚ

/-- A decoded raster as exposed by rasterio: a band count and a 1-indexed
band accessor (`src.count`, `src.read i`).  All bands share the h × w shape. -/
structure Raster (h w : ℕ) where
  bandCount : ℕ
  band : ℕ → Band h w

/-- The distinct `gr.Error` values raised by the notebook, identified by their
message, plus the non-gradio exceptions that can escape the `with` block. -/
inductive GrError where
  /-- gr.Error reporting that the image has `actual` bands while `required`
  are needed (the f-strings at the top of both pipelines). -/
  | insufficientBands (actual required : ℕ)
  /-- gr.Error raised by the first except clause for a RasterioIOError. -/
  | failedToRead
  /-- gr.Error wrapping any other exception: the second except clause,
  which formats the caught exception into its own message. -/
  | unexpected (inner : GrError)
  /-- numpy ValueError from calling min or max on a zero-size array. -/
  | valueErrorEmptyArray
  /-- numpy IndexError from taking a percentile of an empty array. -/
  | indexErrorEmptyPercentile
  /-- rasterio RasterioIOError surfaced while reading (external I/O). -/
  | rasterioIOErr
deriving DecidableEq, Repr

/-- The `try/except` wrapper shared by both pipelines:
`except RasterioIOError` re-raises a fixed message, and `except Exception as e`
re-raises every other exception — including the gr.Error values raised inside
the `try` block itself — wrapped in the unexpected-error message. -/
def handleExceptions {α : Type} (body : Except GrError α) : Except GrError α :=
  match body with
  | .ok v => .ok v
  | .error .rasterioIOErr => .error .failedToRead
  | .error e => .error (.unexpected e)

/-- np.divide(num, den, out=out, where=cond): the division is performed where
`cond` holds, and the prepared `out` element is kept elsewhere. -/
def npDivideWhere (num den out : ℚ) (cond : Bool) : ℚ :=
  if cond then num / den else out

/-- np.clip(v, lo, hi) = min(max(v, lo), hi). -/
def npClip (v lo hi : ℚ) : ℚ :=
  min (max v lo) hi

/-- astype(np.uint8) on a float: truncation toward zero.  Every value this
embedding applies it to lies in [0, 255], where truncation is the floor. -/
def npAstypeU8 (q : ℚ) : ℕ :=
  (⌊q⌋).toNat

/-- Scaling an optionally-undefined stretched sample to 8 bits:
`(value * 255).astype(np.uint8)`; NaN stays undefined. -/
def toU8opt (o : Option ℚ) : Option ℕ :=
  o.map (fun q => npAstypeU8 (q * 255))

/-- Minimum of a list of samples (ndarray.min); none on a zero-size array. -/
def listMin : List ℚ → Option ℚ
  | [] => none
  | a :: as =>
    match listMin as with
    | none => some a
    | some m => some (min a m)

/-- Maximum of a list of samples (ndarray.max); none on a zero-size array. -/
def listMax : List ℚ → Option ℚ
  | [] => none
  | a :: as =>
    match listMax as with
    | none => some a
    | some m => some (max a m)

/-- The samples of one band flattened in row-major order. -/
def bandValues {h w : ℕ} (band : Band h w) : List ℚ :=
  (List.finRange h).flatMap (fun y => (List.finRange w).map (fun x => band y x))

/-- band[band > 0]: the strictly positive samples of a band. -/
def positives {h w : ℕ} (band : Band h w) : List ℚ :=
  (bandValues band).filter (fun v => decide (0 < v))

/-- All samples of the three stacked channels of np.dstack((r1, r2, r3)),
over which the composite takes its joint minimum and maximum. -/
def stackValues {h w : ℕ} (r1 r2 r3 : Band h w) : List ℚ :=
  bandValues r1 ++ bandValues r2 ++ bandValues r3

/-- Insert a sample into an ascending-sorted list of samples. -/
def insertSorted (a : ℚ) : List ℚ → List ℚ
  | [] => [a]
  | b :: bs => if a ≤ b then a :: b :: bs else b :: insertSorted a bs

/-- Sort samples ascending, as np.percentile does internally. -/
def sortQ : List ℚ → List ℚ
  | [] => []
  | a :: as => insertSorted a (sortQ as)

/-- np.percentile(xs, q) with the default linear interpolation method:
for n samples sorted ascending, the virtual index is (n-1)·q/100 and the
result interpolates between the two bracketing order statistics.  A percentile
of an empty array is undefined (numpy raises); embedded as none. -/
def percentile (xs : List ℚ) (q : ℚ) : Option ℚ :=
  match xs with
  | [] => none
  | _ :: _ =>
    let s := sortQ xs
    let n := xs.length
    let v : ℚ := (n - 1 : ℚ) * q / 100
    let i : ℕ := (⌊v⌋).toNat
    let lo := s.getD i 0
    let hi := s.getD (min (i + 1) (n - 1)) 0
    some (lo + (v - (i : ℚ)) * (hi - lo))

/-- Floating-point division as performed elementwise in `normalize_band`:
a zero denominator yields a non-finite value (NaN here, since the numerator
is the clipped sample minus the lower clip bound, which is 0 whenever the
denominator is 0), embedded as none. -/
def qdivF (num den : ℚ) : Option ℚ :=
  if den = 0 then none else some (num / den)

/-- The NDWI computation of `highlight_water_bodies`:
ndwi = np.divide(green - nir, denominator, out=zeros, where=(denominator != 0))
with denominator = np.add(green, nir). -/
def computeNDWI {h w : ℕ} (green nir : Band h w) : Band h w :=
  fun y x =>
    let denominator := green y x + nir y x
    npDivideWhere (green y x - nir y x) denominator 0 (decide (denominator ≠ 0))

/-- water_mask = ndwi > ndwi_threshold, elementwise strict comparison. -/
def waterMaskOf {h w : ℕ} (index : Band h w) (threshold : ℚ) :
    Fin h → Fin w → Bool :=
  fun y x => decide (index y x > threshold)

/-- output_image = background_image.copy(); output_image[water_mask] = color.
The copy makes the operation pure: the result holds the color where the mask
is true and the untouched background elsewhere. -/
def maskComposite {h w : ℕ} {α : Type} (background : Fin h → Fin w → α)
    (mask : Fin h → Fin w → Bool) (color : α) : Fin h → Fin w → α :=
  fun y x => if mask y x then color else background y x

/-- The inner helper `normalize_band` of `highlight_water_bodies`:
p2, p98 = np.percentile(band[band > 0], (2, 98));
stretched = np.clip(band, p2, p98); scaled = (stretched - p2) / (p98 - p2).
A percentile of an empty positives array raises (error case); a zero
percentile range makes every scaled sample non-finite (none). -/
def normalize_band {h w : ℕ} (band : Band h w) :
    Except GrError (Fin h → Fin w → Option ℚ) :=
  match percentile (positives band) 2, percentile (positives band) 98 with
  | some p2, some p98 =>
    .ok (fun y x => qdivF (npClip (band y x) p2 p98 - p2) (p98 - p2))
  | _, _ => .error .indexErrorEmptyPercentile

/-- The highlight color [60, 130, 255] written into masked pixels, at the
optionally-undefined pixel type of the water pipeline background. -/
def highlightOpt : Option ℕ × Option ℕ × Option ℕ :=
  (some 60, some 130, some 255)

/-- create_false_color_composite: validate the band count, read bands 7, 3, 2
as the R, G, B channels, and normalize the stack jointly to 8 bits; a flat
stack (max == min) returns the all-zero image. -/
def create_false_color_composite {h w : ℕ} (r : Raster h w) :
    Except GrError (Fin h → Fin w → ℕ × ℕ × ℕ) :=
  handleExceptions (
    if r.bandCount < 7 then .error (.insufficientBands r.bandCount 7)
    else
      let red := r.band 7
      let green := r.band 3
      let blue := r.band 2
      let vals := stackValues red green blue
      match listMin vals, listMax vals with
      | some min_val, some max_val =>
        if max_val = min_val then .ok (fun _ _ => (0, 0, 0))
        else
          .ok (fun y x =>
            (npAstypeU8 ((red y x - min_val) / (max_val - min_val) * 255),
             npAstypeU8 ((green y x - min_val) / (max_val - min_val) * 255),
             npAstypeU8 ((blue y x - min_val) / (max_val - min_val) * 255)))
      | _, _ => .error .valueErrorEmptyArray)

/-- highlight_water_bodies: validate the band count, compute NDWI from bands
3 (green) and 5 (NIR), threshold it into the water mask, contrast-stretch
bands 4, 3, 2 into the natural-color background, and composite the mask over
it with the highlight color. -/
def highlight_water_bodies {h w : ℕ} (r : Raster h w) (ndwi_threshold : ℚ) :
    Except GrError (Fin h → Fin w → Option ℕ × Option ℕ × Option ℕ) :=
  handleExceptions (
    if r.bandCount < 5 then .error (.insufficientBands r.bandCount 5)
    else
      let red := r.band 4
      let green := r.band 3
      let blue := r.band 2
      let nir := r.band 5
      let ndwi := computeNDWI green nir
      let water_mask := waterMaskOf ndwi ndwi_threshold
      match normalize_band red, normalize_band green, normalize_band blue with
      | .ok nr, .ok ng, .ok nb =>
        let background_image := fun y x =>
          (toU8opt (nr y x), toU8opt (ng y x), toU8opt (nb y x))
        .ok (maskComposite background_image water_mask highlightOpt)
      | .error e, _, _ => .error e
      | _, .error e, _ => .error e
      | _, _, .error e => .error e)

/-- The NDWI array a raster induces in the water pipeline: bands 3 and 5. -/
def ndwiOf {h w : ℕ} (r : Raster h w) : Band h w :=
  computeNDWI (r.band 3) (r.band 5)

/-- Read one pixel out of a composite-pipeline result; an error result gives
the out-of-range sentinel (256, 256, 256). -/
def getPixC {h w : ℕ} (e : Except GrError (Fin h → Fin w → ℕ × ℕ × ℕ))
    (y : Fin h) (x : Fin w) : ℕ × ℕ × ℕ :=
  match e with
  | .ok img => img y x
  | .error _ => (256, 256, 256)

/-- Read one pixel out of a water-pipeline result; an error result gives the
fully-undefined sentinel pixel. -/
def getPixW {h w : ℕ}
    (e : Except GrError (Fin h → Fin w → Option ℕ × Option ℕ × Option ℕ))
    (y : Fin h) (x : Fin w) : Option ℕ × Option ℕ × Option ℕ :=
  match e with
  | .ok img => img y x
  | .error _ => (none, none, none)

/-- Read one pixel out of a normalize_band result; an error result gives an
out-of-range sentinel sample. -/
def getStretchPix {h w : ℕ} (e : Except GrError (Fin h → Fin w → Option ℚ))
    (y : Fin h) (x : Fin w) : Option ℚ :=
  match e with
  | .ok nb => nb y x
  | .error _ => some 999

/-! Concrete rasters and bands used to evaluate the pipelines at explicit
inputs.  Batteries seals the rational arithmetic operations against
unfolding, which would block `decide` on the executable definitions above;
they are re-opened locally for the evaluation proofs below. -/

attribute [local semireducible] Rat.add Rat.mul Rat.inv Rat.sub Rat.ofScientific

/-- A 1 × 1 raster with 7 bands: band 7 holds 1, band 2 holds 2, every other
band holds 0, so the stacked channels are (1, 0, 2) with joint min 0, max 2. -/
def rTrunc : Raster 1 1 :=
  ⟨7, fun i => fun _ _ => if i = 7 then 1 else if i = 2 then 2 else 0⟩

/-- A 1 × 1 raster with 7 bands, every sample equal to 4 (a flat stack). -/
def rFlat : Raster 1 1 :=
  ⟨7, fun _ => fun _ _ => 4⟩

/-- A 1 × 1 raster with only 3 bands, below both band-count minima. -/
def rFew : Raster 1 1 :=
  ⟨3, fun _ => fun _ _ => 0⟩

/-- The 10 × 10 5-band raster of the end-to-end scenario: bands other than 5
are constant at 100, band 5 (NIR) is constant at 50. -/
def r8 : Raster 10 10 :=
  ⟨5, fun i => if i = 5 then (fun _ _ => 50) else (fun _ _ => 100)⟩

/-- A 1 × 1 raster with 5 bands whose green (3) and NIR (5) samples cancel:
green = 5, nir = -5, while bands 2 and 4 hold the positive sample 1. -/
def rCancel : Raster 1 1 :=
  ⟨5, fun i =>
    if i = 3 then (fun _ _ => 5)
    else if i = 5 then (fun _ _ => -5)
    else (fun _ _ => 1)⟩

/-- A same-shape pair of 1 × 1 bands whose samples sum to zero: 5 and -5. -/
def bGreenCancel : Band 1 1 := fun _ _ => 5

/-- The partner band of `bGreenCancel`. -/
def bNirCancel : Band 1 1 := fun _ _ => -5

/-- A 1 × 1 green band holding 100. -/
def bGreen100 : Band 1 1 := fun _ _ => 100

/-- A 1 × 1 NIR band holding 50. -/
def bNir50 : Band 1 1 := fun _ _ => 50

/-- A 1 × 1 index array holding the value one third. -/
def idxThird : Band 1 1 := fun _ _ => 1 / 3

/-- A 1 × 1 background image with an arbitrary pixel. -/
def bgW : Fin 1 → Fin 1 → ℕ × ℕ × ℕ := fun _ _ => (1, 2, 3)

/-- The all-true 1 × 1 mask. -/
def maskT : Fin 1 → Fin 1 → Bool := fun _ _ => true

/-- The all-false 1 × 1 mask. -/
def maskF : Fin 1 → Fin 1 → Bool := fun _ _ => false

/-- A 1 × 1 band with the single positive sample 5, so that both the 2nd and
the 98th percentile of its positive samples are 5. -/
def bFlat : Band 1 1 := fun _ _ => 5

/-! Helper lemmas shared by the water-pipeline theorems. -/

/-- Inversion for the try/except wrapper: a successful result means the body
itself succeeded with the same value. -/
lemma handleExceptions_ok {α : Type} {body : Except GrError α} {v : α}
    (hv : handleExceptions body = .ok v) : body = .ok v := by
  cases body with
  | ok a => simpa [handleExceptions] using hv
  | error e => cases e <;> simp [handleExceptions] at hv

/-- When the water pipeline returns an image, every pixel of that image whose
water mask entry is true holds exactly the highlight color. -/
lemma hw_ok_pixel {h w : ℕ} {r : Raster h w} {t : ℚ}
    {img : Fin h → Fin w → Option ℕ × Option ℕ × Option ℕ}
    (himg : highlight_water_bodies r t = .ok img) {y : Fin h} {x : Fin w}
    (hm : waterMaskOf (ndwiOf r) t y x = true) : img y x = highlightOpt := by
  unfold highlight_water_bodies at himg
  have hbody := handleExceptions_ok himg
  by_cases hb : r.bandCount < 5
  · simp [hb] at hbody
  · simp only [hb, if_false, if_neg] at hbody
    rcases h4 : normalize_band (r.band 4) with e4 | n4 <;> rw [h4] at hbody
    · simp at hbody
    rcases h3 : normalize_band (r.band 3) with e3 | n3 <;> rw [h3] at hbody
    · simp at hbody
    rcases h2 : normalize_band (r.band 2) with e2 | n2 <;> rw [h2] at hbody
    · simp at hbody
    have himg2 : img = maskComposite
        (fun y x => (toU8opt (n4 y x), toU8opt (n3 y x), toU8opt (n2 y x)))
        (waterMaskOf (computeNDWI (r.band 3) (r.band 5)) t) highlightOpt := by
      simpa using hbody.symm
    rw [himg2, maskComposite]
    have hm2 : waterMaskOf (computeNDWI (r.band 3) (r.band 5)) t y x = true := hm
    rw [hm2]
    simp

/-! The claims. -/

/-- C1: for every pair of same-shape bands, at every pixel where
green + nir = 0 the computed NDWI value is exactly 0 regardless of the
individual samples, and at every other pixel it equals
(green - nir) / (green + nir). -/
theorem ndwi_zero_denominator_policy {h w : ℕ} (green nir : Band h w)
    (y : Fin h) (x : Fin w) :
    (green y x + nir y x = 0 → computeNDWI green nir y x = 0) ∧
    (green y x + nir y x ≠ 0 →
      computeNDWI green nir y x =
        (green y x - nir y x) / (green y x + nir y x)) := by
  constructor
  · intro h0
    simp [computeNDWI, npDivideWhere, h0]
  · intro hne
    simp [computeNDWI, npDivideWhere, hne]

/-- Witness for C1 at the pixels (5, -5) and (100, 50). -/
theorem ndwi_zero_denominator_policy_witness :
    computeNDWI bGreenCancel bNirCancel 0 0 = 0 ∧
    computeNDWI bGreen100 bNir50 0 0 = (100 - 50) / (100 + 50) :=
  ⟨(ndwi_zero_denominator_policy bGreenCancel bNirCancel 0 0).1 (by decide),
   by
    have := (ndwi_zero_denominator_policy bGreen100 bNir50 0 0).2 (by decide)
    simpa [bGreen100, bNir50] using this⟩

/-- C2: a pixel belongs to the water mask if and only if its index value is
strictly greater than the threshold; a pixel whose index equals the threshold
exactly is not in the mask. -/
theorem water_mask_strict_threshold {h w : ℕ} (index : Band h w)
    (threshold : ℚ) (y : Fin h) (x : Fin w) :
    (waterMaskOf index threshold y x = true ↔ index y x > threshold) ∧
    (index y x = threshold → waterMaskOf index threshold y x = false) := by
  constructor
  · simp [waterMaskOf]
  · intro he
    simp [waterMaskOf, he]

/-- Witness for C2 at the constant one-third index array with thresholds
one-fifth (strictly below) and one-third (exactly equal). -/
theorem water_mask_strict_threshold_witness :
    (waterMaskOf idxThird (1 / 5) 0 0 = true ↔ idxThird 0 0 > 1 / 5) ∧
    waterMaskOf idxThird (1 / 3) 0 0 = false :=
  ⟨(water_mask_strict_threshold idxThird (1 / 5) 0 0).1,
   (water_mask_strict_threshold idxThird (1 / 3) 0 0).2 (by decide)⟩

/-- C3: mask compositing yields an image equal to the highlight color
(60, 130, 255) wherever the mask is true and equal to the corresponding
background pixel wherever it is false; the background argument itself is
untouched (the source copies the array before the masked assignment, and the
embedding of the copy-then-assign is this pure function). -/
theorem mask_composite_pixels {h w : ℕ} (background : Fin h → Fin w → ℕ × ℕ × ℕ)
    (mask : Fin h → Fin w → Bool) (y : Fin h) (x : Fin w) :
    (mask y x = true →
      maskComposite background mask (60, 130, 255) y x = (60, 130, 255)) ∧
    (mask y x = false →
      maskComposite background mask (60, 130, 255) y x = background y x) := by
  constructor <;> intro hm <;> simp [maskComposite, hm]

/-- Witness for C3 on a concrete background with the all-true and the
all-false masks. -/
theorem mask_composite_pixels_witness :
    maskComposite bgW maskT (60, 130, 255) 0 0 = (60, 130, 255) ∧
    maskComposite bgW maskF (60, 130, 255) 0 0 = bgW 0 0 :=
  ⟨(mask_composite_pixels bgW maskT 0 0).1 rfl,
   (mask_composite_pixels bgW maskF 0 0).2 rfl⟩

/-- C4 counterexample: on the 1 × 1 raster whose stacked channels are
(1, 0, 2), the joint min is 0 and the joint max is 2; the red output sample
is 127 (truncation of 127.5), while the claimed formula
round((1 - 0) / (2 - 0) * 255) gives 128.  astype(np.uint8) truncates, it
does not round. -/
theorem composite_round_counterexample :
    listMin (stackValues (rTrunc.band 7) (rTrunc.band 3) (rTrunc.band 2)) =
      some 0 ∧
    listMax (stackValues (rTrunc.band 7) (rTrunc.band 3) (rTrunc.band 2)) =
      some 2 ∧
    getPixC (create_false_color_composite rTrunc) 0 0 = (127, 0, 255) ∧
    (round ((rTrunc.band 7 0 0 - 0) / (2 - 0) * 255)).toNat = 128 ∧
    (getPixC (create_false_color_composite rTrunc) 0 0).1 ≠ 128 := by
  refine ⟨by decide, by decide, by decide, ?_, by decide⟩
  have hb : rTrunc.band 7 0 0 = 1 := by decide
  rw [hb]
  norm_num [round_eq]
  rfl

/-- C4 amended: when the joint maximum differs from the joint minimum, every
output sample equals the floor (truncation toward zero of the nonnegative
scaled value, which is what astype(np.uint8) performs) of
(value - min) / (max - min) * 255, not its rounding. -/
theorem composite_truncation_formula {h w : ℕ} (r : Raster h w) (mn mx : ℚ)
    (hb : ¬ r.bandCount < 7)
    (hmin : listMin (stackValues (r.band 7) (r.band 3) (r.band 2)) = some mn)
    (hmax : listMax (stackValues (r.band 7) (r.band 3) (r.band 2)) = some mx)
    (hne : mx ≠ mn) (y : Fin h) (x : Fin w) :
    getPixC (create_false_color_composite r) y x =
      ((⌊(r.band 7 y x - mn) / (mx - mn) * 255⌋).toNat,
       (⌊(r.band 3 y x - mn) / (mx - mn) * 255⌋).toNat,
       (⌊(r.band 2 y x - mn) / (mx - mn) * 255⌋).toNat) := by
  simp [create_false_color_composite, handleExceptions, hb, hmin, hmax, hne,
    getPixC, npAstypeU8]

/-- Witness for C4 amended on the (1, 0, 2) raster with min 0 and max 2. -/
theorem composite_truncation_formula_witness :
    getPixC (create_false_color_composite rTrunc) 0 0 =
      ((⌊(rTrunc.band 7 0 0 - 0) / (2 - 0) * 255⌋).toNat,
       (⌊(rTrunc.band 3 0 0 - 0) / (2 - 0) * 255⌋).toNat,
       (⌊(rTrunc.band 2 0 0 - 0) / (2 - 0) * 255⌋).toNat) :=
  composite_truncation_formula rTrunc 0 2 (by decide) (by decide) (by decide)
    (by decide) 0 0

/-- C5: a raster with at least 7 bands whose three selected channels are
jointly constant (joint max equals joint min) yields the all-zero 8-bit
image of the h × w × 3 shape. -/
theorem composite_flat_returns_zeros {h w : ℕ} (r : Raster h w) (m : ℚ)
    (hb : ¬ r.bandCount < 7)
    (hmin : listMin (stackValues (r.band 7) (r.band 3) (r.band 2)) = some m)
    (hmax : listMax (stackValues (r.band 7) (r.band 3) (r.band 2)) = some m) :
    create_false_color_composite r = .ok (fun _ _ => (0, 0, 0)) := by
  simp [create_false_color_composite, handleExceptions, hb, hmin, hmax]

/-- Witness for C5 on the constant-4 raster. -/
theorem composite_flat_returns_zeros_witness :
    create_false_color_composite rFlat = .ok (fun _ _ => (0, 0, 0)) :=
  composite_flat_returns_zeros rFlat 4 (by decide) (by decide) (by decide)

/-- C6 counterexample: on a 3-band raster both pipelines do fail, but not
with the bare insufficient-bands classification: the gr.Error raised inside
the try block is caught by the blanket except clause and re-raised inside the
unexpected-error message. -/
theorem insufficient_bands_wrapped_counterexample :
    create_false_color_composite rFew =
      .error (.unexpected (.insufficientBands 3 7)) ∧
    create_false_color_composite rFew ≠
      .error (.insufficientBands 3 7) ∧
    highlight_water_bodies rFew 0 =
      .error (.unexpected (.insufficientBands 3 5)) ∧
    highlight_water_bodies rFew 0 ≠
      .error (.insufficientBands 3 5) := by
  have h1 : create_false_color_composite rFew =
      .error (.unexpected (.insufficientBands 3 7)) := rfl
  have h2 : highlight_water_bodies rFew 0 =
      .error (.unexpected (.insufficientBands 3 5)) := rfl
  refine ⟨h1, ?_, h2, ?_⟩
  · rw [h1]
    intro hcon
    injection hcon with hinner
    exact absurd hinner (by decide)
  · rw [h2]
    intro hcon
    injection hcon with hinner
    exact absurd hinner (by decide)

/-- C6 amended: for every raster with fewer than 7 bands the composite call,
and with fewer than 5 bands the water-detection call, fails and never
succeeds; the reported error is the unexpected-error wrapper around the
insufficient-bands message carrying the true band count, because the raised
gr.Error is re-caught by the blanket except clause of the same function. -/
theorem insufficient_bands_wrapped {h w : ℕ} (r : Raster h w) (t : ℚ) :
    (r.bandCount < 7 →
      create_false_color_composite r =
        .error (.unexpected (.insufficientBands r.bandCount 7))) ∧
    (r.bandCount < 5 →
      highlight_water_bodies r t =
        .error (.unexpected (.insufficientBands r.bandCount 5))) := by
  constructor <;> intro hlt <;>
    simp [create_false_color_composite, highlight_water_bodies,
      handleExceptions, hlt]

/-- Witness for C6 amended on the 3-band raster. -/
theorem insufficient_bands_wrapped_witness :
    create_false_color_composite rFew =
      .error (.unexpected (.insufficientBands rFew.bandCount 7)) ∧
    highlight_water_bodies rFew 0 =
      .error (.unexpected (.insufficientBands rFew.bandCount 5)) :=
  ⟨(insufficient_bands_wrapped rFew 0).1 (by decide),
   (insufficient_bands_wrapped rFew 0).2 (by decide)⟩

/-- C7 counterexample: on the band whose only positive sample is 5, the 2nd
and 98th percentile coincide at 5, and the stretched band holds the undefined
(NaN) sample, not 0: there is no guard, the division is performed with a zero
denominator. -/
theorem normalize_band_unguarded_counterexample :
    percentile (positives bFlat) 2 = some 5 ∧
    percentile (positives bFlat) 98 = some 5 ∧
    getStretchPix (normalize_band bFlat) 0 0 = none ∧
    getStretchPix (normalize_band bFlat) 0 0 ≠ some 0 :=
  ⟨by decide, by decide, by decide, by decide⟩

/-- C7 amended: the reference does not guard the p98 = p2 case; the division
(stretched - p2) / (p98 - p2) is performed with a zero denominator.  Every
clipped sample then equals p2, so each pixel of the returned band is the
undefined 0/0 float value (NaN, embedded as none) rather than 0. -/
theorem normalize_band_degenerate_nan {h w : ℕ} (band : Band h w) (p : ℚ)
    (h2 : percentile (positives band) 2 = some p)
    (h98 : percentile (positives band) 98 = some p) :
    normalize_band band = .ok (fun _ _ => (none : Option ℚ)) := by
  simp only [normalize_band, h2, h98]
  congr 1
  funext y x
  simp [qdivF]

/-- Witness for C7 amended on the band whose only positive sample is 5. -/
theorem normalize_band_degenerate_nan_witness :
    normalize_band bFlat = .ok (fun _ _ => (none : Option ℚ)) :=
  normalize_band_degenerate_nan bFlat 5 (by decide) (by decide)

/-- C8: on the 10 × 10 5-band raster with bands 2, 3, 4 constant at 100 and
band 5 constant at 50, the NDWI is (100 - 50) / (100 + 50) = 1/3 at every
pixel, and with threshold 0.2 the returned image holds the highlight color
(60, 130, 255) at every one of its 10 × 10 pixels. -/
theorem end_to_end_constant_raster :
    (∀ y x : Fin 10, ndwiOf r8 y x = 1 / 3) ∧
    (∀ y x : Fin 10,
      getPixW (highlight_water_bodies r8 (0.2 : ℚ)) y x = highlightOpt) :=
  ⟨by decide, by decide⟩

/-- C9: the water mask is antitone in the threshold: with two thresholds
t1 ≤ t2, every pixel classified as water at t2 is classified as water at t1
as well, and is therefore painted with the highlight color in the image the
pipeline returns for t1. -/
theorem water_mask_antitone_threshold {h w : ℕ} (r : Raster h w) (t1 t2 : ℚ)
    (y : Fin h) (x : Fin w) (hle : t1 ≤ t2)
    (hm : waterMaskOf (ndwiOf r) t2 y x = true) :
    waterMaskOf (ndwiOf r) t1 y x = true ∧
    ∀ img, highlight_water_bodies r t1 = .ok img → img y x = highlightOpt := by
  have h1 : waterMaskOf (ndwiOf r) t1 y x = true := by
    simp only [waterMaskOf, gt_iff_lt, decide_eq_true_eq] at hm ⊢
    exact lt_of_le_of_lt hle hm
  exact ⟨h1, fun img himg => hw_ok_pixel himg h1⟩

/-- Witness for C9 on the end-to-end raster with thresholds 0 ≤ 1/5. -/
theorem water_mask_antitone_threshold_witness :
    waterMaskOf (ndwiOf r8) 0 0 0 = true ∧
    ∀ img, highlight_water_bodies r8 0 = .ok img → img 0 0 = highlightOpt :=
  water_mask_antitone_threshold r8 0 (1 / 5) 0 0 (by norm_num) (by decide)

/-- C10: for every strictly negative threshold, a pixel whose green + nir sum
is 0 is classified as water — its NDWI is forced to 0 by the
zero-denominator policy, and 0 is strictly greater than the threshold — and
is painted with the highlight color in the returned image. -/
theorem zero_denominator_negative_threshold {h w : ℕ} (r : Raster h w)
    (t : ℚ) (y : Fin h) (x : Fin w) (ht : t < 0)
    (hsum : r.band 3 y x + r.band 5 y x = 0) :
    waterMaskOf (ndwiOf r) t y x = true ∧
    ∀ img, highlight_water_bodies r t = .ok img → img y x = highlightOpt := by
  have h0 : ndwiOf r y x = 0 := by
    simp [ndwiOf, computeNDWI, npDivideWhere, hsum]
  have h1 : waterMaskOf (ndwiOf r) t y x = true := by
    simp only [waterMaskOf, gt_iff_lt, decide_eq_true_eq, h0]
    exact ht
  exact ⟨h1, fun img himg => hw_ok_pixel himg h1⟩

/-- Witness for C10 on the raster whose green and NIR samples cancel, with
threshold -1/2; the pipeline does return an image there, and its pixel is the
highlight color. -/
theorem zero_denominator_negative_threshold_witness :
    (waterMaskOf (ndwiOf rCancel) (-1 / 2) 0 0 = true ∧
      ∀ img, highlight_water_bodies rCancel (-1 / 2) = .ok img →
        img 0 0 = highlightOpt) ∧
    getPixW (highlight_water_bodies rCancel (-1 / 2)) 0 0 = highlightOpt :=
  ⟨zero_denominator_negative_threshold rCancel (-1 / 2) 0 0 (by norm_num)
      (by decide),
   by decide⟩

end WaterBody
